import Mathlib

/- Verification of the wrale-fleet-metal-hw hardware monitoring core.

Shallow embedding of the Go sources: the GPIO controller with software
PWM (src/gpio/controller.go, simulation-aware version, cited by the
claims), polling-based edge detection with debounce
(src/gpio/interrupt.go), the thermal fan-curve controller
(src/thermal/cooling.go, src/unnamed/part_005), the power stability
monitor (src/unnamed/part_014), the tamper monitor (src/secure/types.go)
and the diagnostics orchestrator (src/diag/manager.go).

Modelling conventions:
- Go float64 values are modelled as rationals.  Every constant involved
  in the claims is exactly representable and the arithmetic on the
  verified paths is exact; Go float-to-int conversion is modelled as
  truncation toward zero (goTrunc).
- Go maps are modelled as association lists (lookupA / insertA); map
  iteration order in Close is the list order.
- Go errors are modelled by the inductive type GoErr, one constructor
  per distinct error message of the source (the message is recorded in
  a comment on the constructor).
- Pin reads and writes through the periph pin capability are modelled
  as infallible in-memory state updates, exactly like the mock pins the
  repository uses in its own tests (gpio/pwm_test.go).
- Mutexes and goroutine scheduling are erased: each call or monitor
  tick is one atomic step.  The DisablePWM / pwmLoop synchronisation
  (done channel plus WaitGroup) is modelled by sequencing the whole
  remaining loop trace before the final low write, which is exactly the
  ordering the WaitGroup enforces.
- The interrupts map of the Go Controller is modelled standalone (one
  InterruptState per binding); bindings on distinct pins are
  independent in the source (one polling goroutine per pin).
-/

namespace WraleHW

/- Go error values, one constructor per distinct message in the source. -/
inductive GoErr where
  /- "GPIO controller is disabled" -/
  | disabled
  /- "pin cannot be nil in non-simulation mode" -/
  | pinNilConfigure
  /- "pin %s not found" -/
  | pinNotFound (name : String)
  /- "pin %s is nil" -/
  | pinNil (name : String)
  /- "PWM pin %s not found" -/
  | pwmNotFound (name : String)
  /- "duty cycle must be 0-100" -/
  | dutyCycleRange
  /- "no interrupt configured for pin %s" -/
  | interruptNotConfigured (name : String)
  /- "%s tests failed after %d retries: %w" (diag/manager.go RunAll) -/
  | testsFailed (testName : String) (retries : Nat) (inner : GoErr)
  /- a failed sensor / subsystem read surfaced by a test or tick -/
  | readFailed (what : String)
  deriving Repr, DecidableEq

/- periph.io gpio.Pull -/
inductive Pull where
  | floatP
  | down
  | up
  | noChange
  deriving Repr, DecidableEq

/- A non-nil periph pin: logical level plus configured pull.
Out(level) sets the level, In(pull, edge) sets the pull; both always
succeed (in-memory mock semantics). -/
structure Pin where
  level : Bool
  pull : Pull
  deriving Repr, DecidableEq

/- simPin of src/gpio/controller.go -/
structure SimPin where
  value : Bool
  pull : Pull
  deriving Repr, DecidableEq

/- PWMConfig of src/gpio (part_011) -/
structure PWMConfig where
  frequency : Nat
  dutyCycle : Nat
  pull : Pull
  deriving Repr, DecidableEq

/- pwmState of src/gpio/controller.go (simulation-aware version):
pin (nil allowed in simulation mode), the configuration stored at
ConfigurePWM time, the enabled flag and the runtime duty cycle.  The
done channel and WaitGroup are synchronisation artefacts erased by the
sequential model. -/
structure PwmState where
  pin : Option Pin
  config : PWMConfig
  enabled : Bool
  dutyCycle : Nat
  deriving Repr, DecidableEq

/- Controller of src/gpio/controller.go (simulation-aware version).
The interrupts map is modelled standalone, see InterruptState below. -/
structure Controller where
  pins : List (String × Option Pin)
  simPins : List (String × SimPin)
  pwmPins : List (String × PwmState)
  enabled : Bool
  simulation : Bool
  deriving Repr, DecidableEq

/- Association-list lookup, modelling Go map indexing. -/
def lookupA {α : Type} : List (String × α) → String → Option α
  | [], _ => none
  | (k0, v0) :: rest, k => if k0 = k then some v0 else lookupA rest k

/- Association-list update, modelling Go map assignment. -/
def insertA {α : Type} : List (String × α) → String → α → List (String × α)
  | [], k, v => [(k, v)]
  | (k0, v0) :: rest, k, v =>
    if k0 = k then (k, v) :: rest else (k0, v0) :: insertA rest k v

/- New (src/gpio/controller.go): fresh controller, all maps empty,
enabled, with the requested simulation mode. -/
def newController (simulation : Bool) : Controller :=
  ⟨[], [], [], true, simulation⟩

/- ConfigurePin (src/gpio/controller.go). -/
def configurePin (c : Controller) (name : String) (pin : Option Pin)
    (pull : Pull) : Controller × Option GoErr :=
  if !c.enabled then (c, some .disabled)
  else if c.simulation then
    ({ c with
        pins := insertA c.pins name (pin.map (fun p => { p with pull := pull })),
        simPins := insertA c.simPins name ⟨false, pull⟩ }, none)
  else
    match pin with
    | none => (c, some .pinNilConfigure)
    | some p =>
      ({ c with pins := insertA c.pins name (some { p with pull := pull }) }, none)

/- SetPinState (src/gpio/controller.go). -/
def setPinState (c : Controller) (name : String) (high : Bool) :
    Controller × Option GoErr :=
  if c.simulation then
    match lookupA c.simPins name with
    | none => (c, some (.pinNotFound name))
    | some sp =>
      let c := { c with simPins := insertA c.simPins name { sp with value := high } }
      match lookupA c.pins name with
      | some (some pin) =>
        ({ c with pins := insertA c.pins name (some { pin with level := high }) }, none)
      | _ => (c, none)
  else
    match lookupA c.pins name with
    | none => (c, some (.pinNotFound name))
    | some none => (c, some (.pinNil name))
    | some (some pin) =>
      ({ c with pins := insertA c.pins name (some { pin with level := high }) }, none)

/- GetPinState (src/gpio/controller.go). -/
def getPinState (c : Controller) (name : String) : Except GoErr Bool :=
  if c.simulation then
    match lookupA c.simPins name with
    | none => .error (.pinNotFound name)
    | some sp =>
      match lookupA c.pins name with
      | some (some pin) => .ok pin.level
      | _ => .ok sp.value
  else
    match lookupA c.pins name with
    | none => .error (.pinNotFound name)
    | some none => .error (.pinNil name)
    | some (some pin) => .ok pin.level

/- ConfigurePWM (src/gpio/controller.go). -/
def configurePWM (c : Controller) (name : String) (pin : Option Pin)
    (cfg : PWMConfig) : Controller × Option GoErr :=
  if !c.enabled then (c, some .disabled)
  else
    let cfg := if cfg.frequency = 0 then { cfg with frequency := 25000 } else cfg
    if cfg.dutyCycle > 100 then (c, some .dutyCycleRange)
    else if c.simulation then
      ({ c with
          pwmPins := insertA c.pwmPins name ⟨pin, cfg, false, cfg.dutyCycle⟩,
          simPins := insertA c.simPins name ⟨false, cfg.pull⟩ }, none)
    else
      match pin with
      | none => (c, some .pinNilConfigure)
      | some p =>
        let p := { p with pull := cfg.pull, level := false }
        ({ c with pwmPins := insertA c.pwmPins name ⟨some p, cfg, false, cfg.dutyCycle⟩ },
         none)

/- EnablePWM (src/gpio/controller.go): idempotent, flips the enabled
flag; the generation loop it spawns is modelled by the trace semantics
below (PwmChannelRun). -/
def enablePWM (c : Controller) (name : String) : Controller × Option GoErr :=
  match lookupA c.pwmPins name with
  | none => (c, some (.pwmNotFound name))
  | some st =>
    if st.enabled then (c, none)
    else ({ c with pwmPins := insertA c.pwmPins name { st with enabled := true } }, none)

/- DisablePWM (src/gpio/controller.go): idempotent; in non-simulation
mode, after the loop has exited, writes the pin low when it is
non-nil. -/
def disablePWM (c : Controller) (name : String) : Controller × Option GoErr :=
  match lookupA c.pwmPins name with
  | none => (c, some (.pwmNotFound name))
  | some st =>
    if !st.enabled then (c, none)
    else
      let st := { st with enabled := false }
      if !c.simulation then
        let st := { st with pin := st.pin.map (fun p => { p with level := false }) }
        ({ c with pwmPins := insertA c.pwmPins name st }, none)
      else
        ({ c with pwmPins := insertA c.pwmPins name st }, none)

/- SetPWMDutyCycle (src/gpio/controller.go, lines 402-438): validates
the range, stores the runtime duty cycle, and while enabled (non
simulation, non-nil pin) immediately drives the pin for the extreme
duty cycles 0 and 100. -/
def setPWMDutyCycle (c : Controller) (name : String) (duty : Nat) :
    Controller × Option GoErr :=
  match lookupA c.pwmPins name with
  | none => (c, some (.pwmNotFound name))
  | some st =>
    if duty > 100 then (c, some .dutyCycleRange)
    else
      let st := { st with dutyCycle := duty }
      let st :=
        if st.enabled && !c.simulation then
          match st.pin with
          | some p =>
            if duty = 0 then { st with pin := some { p with level := false } }
            else if duty = 100 then { st with pin := some { p with level := true } }
            else st
          | none => st
        else st
      ({ c with pwmPins := insertA c.pwmPins name st }, none)

/- GetPWMState (src/gpio/pwm.go, lines 377-391): returns the stored
PWMConfig of the channel. -/
def getPWMState (c : Controller) (name : String) : Except GoErr PWMConfig :=
  match lookupA c.pwmPins name with
  | none => .error (.pwmNotFound name)
  | some st => .ok st.config

/- Close (src/gpio/controller.go, lines 501-528): in non-simulation
mode disables every PWM output, drives every configured non-nil pin
low, then disables the controller.  All modelled pin writes succeed, so
lastErr is none. -/
def close (c : Controller) : Controller × Option GoErr :=
  if !c.simulation then
    let c1 := (c.pwmPins.map Prod.fst).foldl (fun acc n => (disablePWM acc n).1) c
    let c2 := { c1 with
      pins := c1.pins.map
        (fun (e : String × Option Pin) =>
          (e.1, e.2.map (fun (p : Pin) => { p with level := false }))) }
    ({ c2 with enabled := false }, none)
  else
    ({ c with enabled := false }, none)

/- Pin writes of one iteration of pwmLoop (src/gpio/controller.go,
lines 440-499) for a given duty cycle: duty 0 holds low for one period,
duty 100 holds high, otherwise high for the on-time then low for the
remainder.  Timer waits are erased; the trace records the sequence of
levels written. -/
def pwmIterWrites (duty : Nat) : List Bool :=
  if duty = 0 then [false]
  else if duty = 100 then [true]
  else [true, false]

/- Pin writes of a given number of whole pwmLoop iterations. -/
def pwmLoopWrites (duty : Nat) : Nat → List Bool
  | 0 => []
  | n + 1 => pwmIterWrites duty ++ pwmLoopWrites duty n

/- Trace semantics of one PWM channel: the channel state together with
the sequence of writes performed on its pin so far. -/
structure PwmChannelRun where
  st : PwmState
  writes : List Bool
  deriving Repr, DecidableEq

/- One scheduling step of the generation loop: while the channel is
enabled the loop appends one iteration of writes; once the channel is
disabled the loop has exited and performs no writes (pwmLoop returns on
the done channel or on seeing enabled = false). -/
def pwmLoopStep (r : PwmChannelRun) : PwmChannelRun :=
  if r.st.enabled then { r with writes := r.writes ++ pwmIterWrites r.st.dutyCycle }
  else r

/- DisablePWM (src/gpio/controller.go, lines 367-400), trace view.
If the channel is already disabled this is a no-op returning success.
Otherwise the enabled flag is cleared and the done channel closed; the
loop may still be mid-iteration, so any pending whole iterations
(pendingIters of them) complete their writes, state.wg.Wait() blocks
until the loop has exited, and only then is the pin written low (when
it is non-nil).  Every write that happens after DisablePWM is called
is therefore sequenced before its return. -/
def pwmDisableRun (r : PwmChannelRun) (pendingIters : Nat) :
    PwmChannelRun × Option GoErr :=
  if !r.st.enabled then (r, none)
  else
    (⟨{ r.st with enabled := false },
      r.writes ++ pwmLoopWrites r.st.dutyCycle pendingIters ++
        (if r.st.pin.isSome then [false] else [])⟩, none)

/- Edge (src/gpio/interrupt.go). -/
inductive GpioEdge where
  | rising
  | falling
  | both
  deriving Repr, DecidableEq

/- InterruptConfig (src/gpio/interrupt.go): edge mode, debounce
duration, and whether a handler is configured (the handler body is
external).  Time is modelled as an integer number of nanoseconds, so
time.Time subtraction is ordinary integer subtraction. -/
structure InterruptConfig where
  edge : GpioEdge
  debounceTime : Int
  hasHandler : Bool
  deriving Repr, DecidableEq

/- interruptState (src/gpio/interrupt.go): configuration, timestamp of
the last accepted trigger (the Go zero time is modelled as 0), and the
enabled flag. -/
structure InterruptState where
  config : InterruptConfig
  lastTrigger : Int
  enabled : Bool
  deriving Repr, DecidableEq

/- handleInterrupt (src/gpio/interrupt.go, lines 89-116) for one
binding.  Returns the updated binding and whether the event was
accepted (timestamp updated; the handler is then called when one is
configured).  The event is dropped when the binding is disabled or when
now - lastTrigger is below the debounce duration. -/
def handleInterrupt (st : InterruptState) (now : Int) (_level : Bool) :
    InterruptState × Bool :=
  if !st.enabled then (st, false)
  else if now - st.lastTrigger < st.config.debounceTime then (st, false)
  else ({ st with lastTrigger := now }, true)

/- DisableInterrupt (src/gpio/interrupt.go, lines 75-87). -/
def disableInterrupt (st : InterruptState) : InterruptState :=
  { st with enabled := false }

/- monitorPin (src/gpio/interrupt.go, lines 118-131), run over a finite
list of polls.  Each poll is (time, level read from the pin); every
iteration reads the pin state and calls handleInterrupt with it.
Returns the final binding state, the list of calls made to the debounce
gate (handleInterrupt), and the trajectory of lastTrigger values after
each poll. -/
def monitorRun (st : InterruptState) :
    List (Int × Bool) → InterruptState × List (Int × Bool) × List Int
  | [] => (st, [], [])
  | (now, level) :: rest =>
    let st1 := (handleInterrupt st now level).1
    let r := monitorRun st1 rest
    (r.1, (now, level) :: r.2.1, st1.lastTrigger :: r.2.2)

/- Spec-side helper for claim C5: does a new level constitute the
configured edge? -/
def edgeMatches (e : GpioEdge) (newLevel : Bool) : Bool :=
  match e with
  | .rising => newLevel
  | .falling => !newLevel
  | .both => true

/- Spec-side helper for claim C5 (follows the words of the spec, not
the source): the polls representing a change versus the last observed
level that is consistent with the configured edge; only these should
reach the debounce gate according to the spec. -/
def changeFilteredPolls (e : GpioEdge) (lastLevel : Bool) :
    List (Int × Bool) → List (Int × Bool)
  | [] => []
  | (now, l) :: rest =>
    if l ≠ lastLevel ∧ edgeMatches e l then
      (now, l) :: changeFilteredPolls e l rest
    else
      changeFilteredPolls e l rest

/- Claim C5 as stated: on every run, the debounce gate is reached only
by polls that changed the level relative to the last observed level
consistently with the configured edge. -/
def c5AsStated : Prop :=
  ∀ (st : InterruptState) (lastLevel : Bool) (polls : List (Int × Bool)),
    (monitorRun st polls).2.1 ⊆ changeFilteredPolls st.config.edge lastLevel polls

/- Go float-to-int conversion on an exact rational value: truncation
toward zero. -/
def goTrunc (q : ℚ) : Int :=
  q.num.tdiv (q.den : Int)

/- Temperature thresholds (src/thermal/types.go). -/
def cpuTempWarning : ℚ := 70

def cpuTempCritical : ℚ := 80

/- Fan speed percentages (src/thermal/cooling.go). -/
def fanSpeedLow : Int := 25

def fanSpeedMedium : Int := 50

def fanSpeedHigh : Int := 100

/- The switch of updateCooling (src/thermal/cooling.go, lines 20-58):
fan speed and throttle decision from the maximum temperature.  The two
interpolation branches compute
speed = base + int(float64(speedRange) * (tempAboveBase / tempRange)). -/
def coolingDecision (maxTemp : ℚ) : Int × Bool :=
  if maxTemp ≥ cpuTempCritical then (fanSpeedHigh, true)
  else if maxTemp ≥ cpuTempWarning then
    (fanSpeedMedium +
      goTrunc (((fanSpeedHigh - fanSpeedMedium : Int) : ℚ) *
        ((maxTemp - cpuTempWarning) / (cpuTempCritical - cpuTempWarning))),
     false)
  else if maxTemp ≥ cpuTempWarning / 2 then
    (fanSpeedLow +
      goTrunc (((fanSpeedMedium - fanSpeedLow : Int) : ℚ) *
        ((maxTemp - cpuTempWarning / 2) / (cpuTempWarning - cpuTempWarning / 2))),
     false)
  else (fanSpeedLow, false)

/- ThermalState (src/thermal/types.go), restricted to the fields the
cooling path touches. -/
structure ThermalState where
  cpuTemp : ℚ
  gpuTemp : ℚ
  fanSpeed : Int
  throttled : Bool
  deriving Repr, DecidableEq

/- The thermal Monitor (src/thermal/monitor.go), restricted to the
cooling path: its state snapshot, the configured pin names, and the
last duty cycle pushed to gpio.SetPWMDutyCycle (none if no push has
happened yet). -/
structure ThermalMonitor where
  state : ThermalState
  fanPin : String
  throttlePin : String
  lastSentDuty : Option Nat
  deriving Repr, DecidableEq

/- setFanSpeed (src/thermal/cooling.go, lines 78-93): no-op without a
fan pin; otherwise clamps the requested speed into
[fanSpeedLow, fanSpeedHigh] and sends it to the PWM engine as uint32. -/
def setFanSpeed (m : ThermalMonitor) (speed : Int) : ThermalMonitor :=
  if m.fanPin = ("") then m
  else
    let s := if speed < fanSpeedLow then fanSpeedLow else speed
    let s := if s > fanSpeedHigh then fanSpeedHigh else s
    { m with lastSentDuty := some s.toNat }

/- setFanSpeedLocked (src/unnamed/part_005, lines 104-123), the uint32
variant: returns the duty cycle sent to gpio.SetPWMDutyCycle, or none
when no fan pin is configured. -/
def setFanSpeedLocked (fanPin : String) (dutyCycle : Nat) : Option Nat :=
  if fanPin = ("") then none
  else
    let d := if dutyCycle < 25 then 25 else dutyCycle
    let d := if d > 100 then 100 else d
    some d

/- setThrottling (src/thermal/cooling.go, lines 95-103): no-op without
a throttle pin; otherwise writes the pin and records the flag. -/
def setThrottling (m : ThermalMonitor) (enabled : Bool) : ThermalMonitor :=
  if m.throttlePin = ("") then m
  else { m with state := { m.state with throttled := enabled } }

/- updateCooling (src/thermal/cooling.go, lines 20-58): takes the
maximum of the CPU and GPU temperatures, applies the switch, and pushes
the fan speed only when it changed from the previous tick. -/
def updateCooling (m : ThermalMonitor) : ThermalMonitor :=
  let maxTemp :=
    if m.state.gpuTemp > m.state.cpuTemp then m.state.gpuTemp else m.state.cpuTemp
  let d := coolingDecision maxTemp
  let m := setThrottling m d.2
  if d.1 ≠ m.state.fanSpeed then
    let m := setFanSpeed m d.1
    { m with state := { m.state with fanSpeed := d.1 } }
  else m

/- The spec-side clamp for claim C10: s clamped into [25, 100]. -/
def clampFan (s : Int) : Int :=
  if s ≤ fanSpeedLow then fanSpeedLow
  else if fanSpeedHigh ≤ s then fanSpeedHigh
  else s

/- criticalVoltage (src/power/types.go): 4.8 V. -/
def criticalVoltage : ℚ := 24 / 5

/- StabilityEventType (src/power, part_015). -/
inductive StabEventType where
  | voltageRipple
  | voltageSag
  | currentSpike
  | powerCycle
  | sourceFailover
  deriving Repr, DecidableEq

/- StabilityEvent (src/power, part_015), restricted to the typed
fields (the free-text Details string is not modelled). -/
structure StabEvent where
  time : Int
  type : StabEventType
  reading : ℚ
  threshold : ℚ
  deriving Repr, DecidableEq

/- StabilityMetrics (src/power, part_015). -/
structure StabMetrics where
  voltageRipple : ℚ
  minVoltage : ℚ
  maxVoltage : ℚ
  averageVoltage : ℚ
  powerCycles : Nat
  lastCycleDuration : Int
  currentSpikes : Nat
  maxCurrentSpike : ℚ
  deriving Repr, DecidableEq

/- StabilityConfig (src/power, part_015), the fields sample uses.  The
modelled scenarios always pass explicit nonzero thresholds, so the
zero-value defaulting of newStabilityMonitor (whose default constants
criticalRipple and criticalCurrent are absent from src) never fires. -/
structure StabConfig where
  sampleWindow : Nat
  rippleThreshold : ℚ
  currentThreshold : ℚ
  deriving Repr, DecidableEq

/- The slice of PowerState (src/power/types.go) that sample reads. -/
structure PowerSnapshot where
  voltage : ℚ
  powerConsumption : ℚ
  currentSource : String
  availablePower : List (String × Bool)
  deriving Repr, DecidableEq

/- stabilityMonitor (src/unnamed/part_014): configuration, the circular
voltage buffer (fixed-length list with head index and fill count), the
source / power-cycle tracking state and the running metrics. -/
structure StabMonitor where
  cfg : StabConfig
  samples : List ℚ
  head : Nat
  count : Nat
  lastVoltage : ℚ
  lastSource : String
  cycleStart : Int
  cycleInProgress : Bool
  metrics : StabMetrics
  deriving Repr, DecidableEq

/- A fresh stabilityMonitor: zero Go values everywhere and a voltage
buffer of sampleWindow zeros (make([]float64, cfg.SampleWindow)). -/
def mkStabMonitor (cfg : StabConfig) : StabMonitor :=
  ⟨cfg, List.replicate cfg.sampleWindow 0, 0, 0, 0, (""), 0, false,
    ⟨0, 0, 0, 0, 0, 0, 0, 0⟩⟩

/- Minimum / maximum / sum fold of the metrics block of sample
(src/unnamed/part_014, lines 236-254): starts from samples[0] and scans
samples[0 .. count-1]. -/
def scanMin (s0 : ℚ) (l : List ℚ) : ℚ := l.foldl min s0

def scanMax (s0 : ℚ) (l : List ℚ) : ℚ := l.foldl max s0

/- The voltage-stability metrics block of sample (src/unnamed/part_014,
lines 236-281): when at least one sample is held, recompute min, max,
ripple and average over samples[0 .. count-1] starting the scans from
samples[0], then emit a ripple event when the ripple strictly exceeds
the threshold and a sag event when the minimum is below the critical
voltage. -/
def voltMetricsBlock (cfg : StabConfig) (metrics : StabMetrics)
    (samples : List ℚ) (count : Nat) (now : Int) :
    StabMetrics × List StabEvent :=
  if count > 0 then
    let s0 := samples.getD 0 0
    let held := samples.take count
    let mn := scanMin s0 held
    let mx := scanMax s0 held
    let sum := held.foldl (· + ·) 0
    let metrics := { metrics with
      minVoltage := mn,
      maxVoltage := mx,
      voltageRipple := mx - mn,
      averageVoltage := sum / (count : ℚ) }
    let rippleEvents :=
      if metrics.voltageRipple > cfg.rippleThreshold then
        [(⟨now, .voltageRipple, metrics.voltageRipple, cfg.rippleThreshold⟩ :
          StabEvent)]
      else []
    let sagEvents :=
      if mn < criticalVoltage then
        [(⟨now, .voltageSag, mn, criticalVoltage⟩ : StabEvent)]
      else []
    (metrics, rippleEvents ++ sagEvents)
  else (metrics, [])

/- sample (src/unnamed/part_014, lines 176-303): one stability tick.
now is the tick time; st is the power-state snapshot read from the
power manager.  Returns the updated monitor and the events emitted, in
emission order.  Note current = PowerConsumption / Voltage uses total
division on rationals (the claims only exercise nonzero voltages). -/
def sample (m : StabMonitor) (now : Int) (st : PowerSnapshot) :
    StabMonitor × List StabEvent :=
  let voltage := st.voltage
  let current := st.powerConsumption / voltage
  let samples := m.samples.set m.head voltage
  let head := (m.head + 1) % samples.length
  let count := if m.count < samples.length then m.count + 1 else m.count
  let metrics := m.metrics
  -- Check for power source changes
  let failoverEvents :=
    if st.currentSource ≠ m.lastSource then
      [(⟨now, .sourceFailover, 0, 0⟩ : StabEvent)]
    else []
  let lastSource := st.currentSource
  -- Detect power cycles
  let powerAvailable := st.availablePower.any (fun e => e.2)
  let cyc :=
    if !powerAvailable ∧ !m.cycleInProgress then
      (true, now, metrics, ([] : List StabEvent))
    else if powerAvailable ∧ m.cycleInProgress then
      let duration := now - m.cycleStart
      (false, m.cycleStart,
        { metrics with
            powerCycles := metrics.powerCycles + 1,
            lastCycleDuration := duration },
        [(⟨now, .powerCycle, (duration : ℚ), 0⟩ : StabEvent)])
    else (m.cycleInProgress, m.cycleStart, metrics, [])
  let cycleInProgress := cyc.1
  let cycleStart := cyc.2.1
  let metrics := cyc.2.2.1
  let cycleEvents := cyc.2.2.2
  -- Calculate voltage stability metrics
  let volt := voltMetricsBlock m.cfg metrics samples count now
  let metrics := volt.1
  let voltEvents := volt.2
  -- Check for current spikes
  let spike :=
    if current > m.cfg.currentThreshold then
      ({ metrics with
          currentSpikes := metrics.currentSpikes + 1,
          maxCurrentSpike :=
            if current > metrics.maxCurrentSpike then current
            else metrics.maxCurrentSpike },
       [(⟨now, .currentSpike, current, m.cfg.currentThreshold⟩ : StabEvent)])
    else (metrics, [])
  let metrics := spike.1
  let spikeEvents := spike.2
  (⟨m.cfg, samples, head, count, voltage, lastSource, cycleStart,
    cycleInProgress, metrics⟩,
   failoverEvents ++ cycleEvents ++ voltEvents ++ spikeEvents)

/- A run of stability ticks; events are concatenated in order. -/
def sampleRun (m : StabMonitor) :
    List (Int × PowerSnapshot) → StabMonitor × List StabEvent
  | [] => (m, [])
  | (now, st) :: rest =>
    let r1 := sample m now st
    let r2 := sampleRun r1.1 rest
    (r2.1, r1.2 ++ r2.2)

/- TamperState (src/secure/types.go). -/
structure TamperState where
  caseOpen : Bool
  motionDetected : Bool
  voltageNormal : Bool
  lastCheck : Int
  deriving Repr, DecidableEq

/- The security Manager (src/secure/manager.go), restricted to the
fields checkSecurity touches; the state store and the tamper callback
are external collaborators, modelled by presence flags. -/
structure SecManager where
  deviceID : String
  hasStore : Bool
  hasTamperCallback : Bool
  state : TamperState
  deriving Repr, DecidableEq

/- Observable outcome of one checkSecurity tick. -/
structure SecOutcome where
  tamperCallbackInvoked : Bool
  logEventAttempted : Bool
  logEventFailed : Bool
  saveStateAttempted : Bool
  saveStateFailed : Bool
  tickError : Option GoErr
  deriving Repr, DecidableEq

/- checkSecurity (src/secure/types.go, lines 73-134): reads the three
sensor pins (the read results, possibly failed, are passed in), builds
one atomic TamperState stamped now, fires the tamper callback and logs
an event when caseOpen OR motion OR NOT voltageNormal, then always
saves the state.  LogEvent and SaveState failures (the two Bool flags)
are printed and swallowed, never returned; only a failed pin read
aborts the tick. -/
def checkSecurity (m : SecManager) (now : Int)
    (caseRead motionRead voltRead : Except GoErr Bool)
    (logEventFails saveStateFails : Bool) : SecManager × SecOutcome :=
  match caseRead, motionRead, voltRead with
  | .error e, _, _ => (m, ⟨false, false, false, false, false, some e⟩)
  | _, .error e, _ => (m, ⟨false, false, false, false, false, some e⟩)
  | _, _, .error e => (m, ⟨false, false, false, false, false, some e⟩)
  | .ok caseOpen, .ok motion, .ok voltOk =>
    let newState : TamperState := ⟨caseOpen, motion, voltOk, now⟩
    let tamper := caseOpen || motion || !voltOk
    let callbackInvoked := tamper && m.hasTamperCallback
    let logAttempted := tamper && m.hasStore
    let logFailed := logAttempted && logEventFails
    let saveAttempted := m.hasStore
    let saveFailed := saveAttempted && saveStateFails
    ({ m with state := newState },
     ⟨callbackInvoked, logAttempted, logFailed, saveAttempted, saveFailed, none⟩)

/- TestType (src/diag/types.go). -/
inductive DiagTestType where
  | gpio
  | power
  | thermal
  | security
  deriving Repr, DecidableEq

/- TestStatus (src/diag/types.go). -/
inductive DiagStatus where
  | pass
  | fail
  | warning
  | skipped
  deriving Repr, DecidableEq

/- TestResult (src/diag/types.go), restricted to the discriminating
fields. -/
structure DiagResult where
  type : DiagTestType
  component : String
  status : DiagStatus
  deriving Repr, DecidableEq

/- One battery entry of RunAll: its name and, for each attempt number,
the results it records via recordResult and the error it returns.  The
individual tests (TestGPIO, TestPower, TestThermal, TestSecurity) read
external subsystem state, so an attempt's outcome is modelled as a
function of the attempt index. -/
structure DiagTest where
  name : String
  run : Nat → List DiagResult × Option GoErr

/- The retry loop of RunAll (src/diag/manager.go, lines 240-252) for a
single test, iterating over the remaining retry indices
(List.range retries): on success break; on failure at the last retry
return the wrapping error; otherwise sleep one second (erased) and
retry.  Returns all recorded results and the final error. -/
def runTestLoop (t : DiagTest) (retries : Nat) :
    List Nat → List DiagResult × Option GoErr
  | [] => ([], none)
  | retry :: rest =>
    let r := t.run retry
    match r.2 with
    | none => (r.1, none)
    | some e =>
      if rest.isEmpty then (r.1, some (.testsFailed t.name retries e))
      else
        let r2 := runTestLoop t retries rest
        (r.1 ++ r2.1, r2.2)

def runTest (t : DiagTest) (retries : Nat) : List DiagResult × Option GoErr :=
  runTestLoop t retries (List.range retries)

/- RunAll (src/diag/manager.go, lines 228-255) over the ordered battery:
each test runs with the retry policy; the first exhausted test aborts
the whole run with its wrapping error and no later test is attempted.
The result list is the test history in recordResult order
(= GetResults). -/
def runAll (retries : Nat) : List DiagTest → List DiagResult × Option GoErr
  | [] => ([], none)
  | t :: ts =>
    let r := runTest t retries
    match r.2 with
    | some e => (r.1, some e)
    | none =>
      let r2 := runAll retries ts
      (r.1 ++ r2.1, r2.2)

/- The spec-side clamp for the uint32 fan-speed setter. -/
def clampFanNat (d : Nat) : Nat :=
  if d ≤ 25 then 25
  else if 100 ≤ d then 100
  else d

/- Ripple-event recogniser. -/
def isRippleEvent (e : StabEvent) : Bool :=
  match e.type with
  | .voltageRipple => true
  | _ => false

/- Concrete states used by witnesses and counterexamples. -/

/- A non-simulation controller with one PWM channel named fan,
configured at 25 kHz with an initial duty cycle of 50. -/
def c1Controller : Controller :=
  (configurePWM (newController false) ("fan") (some ⟨false, .floatP⟩)
    ⟨25000, 50, .floatP⟩).1

/- The pwmState of c1Controller's fan channel. -/
def c1FanState : PwmState :=
  ⟨some ⟨false, .floatP⟩, ⟨25000, 50, .floatP⟩, false, 50⟩

/- An enabled PWM channel at duty 50 whose loop has already written
high once. -/
def c4Run : PwmChannelRun :=
  ⟨⟨some ⟨true, .floatP⟩, ⟨25000, 50, .floatP⟩, true, 50⟩, [true]⟩

/- An enabled rising-edge binding with a 1000 ns debounce. -/
def c5Binding : InterruptState :=
  ⟨⟨.rising, 1000, true⟩, 0, true⟩

/- An enabled both-edges binding with a 10 ns debounce. -/
def c6Binding : InterruptState :=
  ⟨⟨.both, 10, true⟩, 0, true⟩

/- A stability configuration with the ripple threshold 0.5 V and
current threshold 2 A of the repository's own stability test, and a
window capacity of 3 samples. -/
def c7Cfg : StabConfig :=
  ⟨3, 1 / 2, 2⟩

/- The samples currently held by the circular buffer:
samples[0 .. count-1]. -/
def heldSamples (m : StabMonitor) : List ℚ :=
  m.samples.take m.count

/- A power snapshot at a given voltage: main power present, 5 W load. -/
def c7Snap (v : ℚ) : PowerSnapshot :=
  ⟨v, 5, ("MAIN"), [(("MAIN"), true)]⟩

/- The voltage excursion 5.0 V, 4.2 V, 5.0 V of claim C7. -/
def c7Ticks : List (Int × PowerSnapshot) :=
  [(0, c7Snap 5), (1, c7Snap (21 / 5)), (2, c7Snap 5)]

/- A non-simulation controller with one configured pin p driven high. -/
def c8Controller : Controller :=
  (setPinState
    ((configurePin (newController false) ("p") (some ⟨false, .floatP⟩) .floatP).1)
    ("p") true).1

/- A security manager with a state store and a tamper callback. -/
def c9Manager : SecManager :=
  ⟨("dev1"), true, true, ⟨false, false, true, 0⟩⟩

/- Thermal monitors with fan and throttle pins configured. -/
def c3Monitor : ThermalMonitor :=
  ⟨⟨35, 40, 0, false⟩, ("fan"), ("throttle"), none⟩

def c10Monitor : ThermalMonitor :=
  ⟨⟨40, 40, 0, false⟩, ("fan"), ("throttle"), none⟩

/- Diagnostic battery entries used for claim C2.  The flaky GPIO test
fails on attempts 0 and 1 and records a pass on attempt 2; the failing
GPIO test fails on every attempt; the later test always passes. -/
def c2PassResult : DiagResult := ⟨.gpio, ("pin1"), .pass⟩

def c2FailResult : DiagResult := ⟨.gpio, ("pin1"), .fail⟩

def c2PowerResult : DiagResult := ⟨.power, ("power_system"), .pass⟩

def c2FlakyTest : DiagTest :=
  ⟨("GPIO"), fun k =>
    if k = 2 then ([c2PassResult], none)
    else ([c2FailResult], some (.readFailed ("pin1")))⟩

def c2FailingTest : DiagTest :=
  ⟨("GPIO"), fun _ => ([c2FailResult], some (.readFailed ("pin1")))⟩

def c2LaterTest : DiagTest :=
  ⟨("Power"), fun _ => ([c2PowerResult], none)⟩

/- Lookup after insert at the same key. -/
theorem lookupA_insertA_self {α : Type} (xs : List (String × α)) (k : String) (v : α) :
    lookupA (insertA xs k v) k = some v := by
  induction xs with
  | nil => simp [insertA, lookupA]
  | cons hd tl ih =>
    by_cases h : hd.1 = k
    · simp [insertA, lookupA, h]
    · simp [insertA, lookupA, h, ih]

/- Lookup in a value-mapped association list. -/
theorem lookupA_map {α β : Type} (f : α → β) (xs : List (String × α)) (k : String) :
    lookupA (xs.map (fun e => (e.1, f e.2))) k = (lookupA xs k).map f := by
  induction xs with
  | nil => simp [lookupA]
  | cons hd tl ih =>
    by_cases h : hd.1 = k
    · simp [lookupA, h]
    · simp [lookupA, h, ih]

/- A handleInterrupt step either stamps lastTrigger to now or leaves it
unchanged. -/
theorem handleInterrupt_lastTrigger (st : InterruptState) (now : Int) (level : Bool) :
    (handleInterrupt st now level).1.lastTrigger = now ∨
    (handleInterrupt st now level).1.lastTrigger = st.lastTrigger := by
  unfold handleInterrupt
  split
  · exact Or.inr rfl
  · split
    · exact Or.inr rfl
    · exact Or.inl rfl

/-- C3: on the thermal tick with CPU temperature 35 and GPU temperature
40, updateCooling lands in the low-to-medium interpolation branch
(maxTemp = 40 is at or above warning/2 = 35) and computes fan duty
25 + trunc(25 * (40 - 35) / (70 - 35)) = 28 with throttled = false,
sending duty 28 to the PWM engine; the duty 25 required by the claim
(and by the repository's own TestCooling) is not produced. -/
theorem c3_cooling_at_cpu35_gpu40 :
    (updateCooling c3Monitor).state.fanSpeed = 28 ∧
    (updateCooling c3Monitor).state.throttled = false ∧
    (updateCooling c3Monitor).lastSentDuty = some 28 ∧
    (28 : Int) ≠ 25 := by
  have ht : Int.tdiv 25 7 = 3 := by decide
  have h1 : updateCooling c3Monitor =
      ⟨⟨35, 40, 28, false⟩, ("fan"), ("throttle"), some 28⟩ := by
    unfold updateCooling coolingDecision setThrottling setFanSpeed c3Monitor
    norm_num [cpuTempWarning, cpuTempCritical, fanSpeedLow, fanSpeedMedium,
      fanSpeedHigh, goTrunc, ht]
    simp
  rw [h1]
  refine ⟨rfl, rfl, rfl, by decide⟩

/-- C4: once DisablePWM returns successfully on an enabled channel with
a backing pin, the last write in the channel's trace is low, the
channel is disabled so the generation loop performs no further writes,
and disabling again is a success-returning no-op. -/
theorem c4_disablePWM_trace (r : PwmChannelRun) (k : Nat)
    (hen : r.st.enabled = true) (hpin : r.st.pin.isSome = true) :
    (pwmDisableRun r k).2 = none ∧
    (pwmDisableRun r k).1.writes.getLast? = some false ∧
    (pwmDisableRun r k).1.st.enabled = false ∧
    pwmLoopStep (pwmDisableRun r k).1 = (pwmDisableRun r k).1 ∧
    (∀ k2, pwmDisableRun (pwmDisableRun r k).1 k2 = ((pwmDisableRun r k).1, none)) := by
  have h1 : pwmDisableRun r k =
      (⟨{ r.st with enabled := false },
        r.writes ++ pwmLoopWrites r.st.dutyCycle k ++ [false]⟩, none) := by
    unfold pwmDisableRun
    simp [hen, hpin]
  rw [h1]
  refine ⟨rfl, ?_, rfl, ?_, ?_⟩
  · exact List.getLast?_concat _
  · unfold pwmLoopStep
    simp
  · intro k2
    unfold pwmDisableRun
    simp

/-- C4 witness: disabling the concrete enabled channel c4Run with two
pending loop iterations. -/
theorem c4_disablePWM_witness :
    (pwmDisableRun c4Run 2).2 = none ∧
    (pwmDisableRun c4Run 2).1.writes.getLast? = some false ∧
    (pwmDisableRun c4Run 2).1.st.enabled = false ∧
    pwmLoopStep (pwmDisableRun c4Run 2).1 = (pwmDisableRun c4Run 2).1 ∧
    pwmDisableRun (pwmDisableRun c4Run 2).1 5 = ((pwmDisableRun c4Run 2).1, none) := by
  have h := c4_disablePWM_trace c4Run 2 (by decide) (by decide)
  exact ⟨h.1, h.2.1, h.2.2.1, h.2.2.2.1, h.2.2.2.2 5⟩

/-- C5 counterexample: the claim as stated is false.  With an enabled
rising-edge binding and two consecutive polls both reading high, the
second poll observes no level change at all, yet the polling loop still
calls the debounce gate with it (monitorPin invokes handleInterrupt on
every poll). -/
theorem c5_counterexample : ¬ c5AsStated := by
  intro h
  have hm : ((0 : Int), true) ∈ (monitorRun c5Binding [(0, true), (1, true)]).2.1 := by
    simp [monitorRun, handleInterrupt, c5Binding]
  have h2 := h c5Binding true [(0, true), (1, true)] hm
  simp [changeFilteredPolls, edgeMatches, c5Binding] at h2

/-- C5 amended: the polling task invokes the debounce gate
(handleInterrupt) on every poll, passing the level just read,
regardless of whether the level changed and regardless of the
configured edge mode; change detection and edge filtering do not occur
in monitorPin, rate limiting happens only through the debounce check
inside handleInterrupt. -/
theorem c5_every_poll_reaches_gate (st : InterruptState)
    (polls : List (Int × Bool)) :
    (monitorRun st polls).2.1 = polls := by
  induction polls generalizing st with
  | nil => rfl
  | cons p rest ih =>
    obtain ⟨now, level⟩ := p
    simp [monitorRun, ih]

/-- C6: an interrupt event is accepted (trigger timestamp updated, the
handler then invoked when configured) only if the binding is enabled
and now - lastTrigger is at least the debounce duration, and acceptance
stamps lastTrigger to now; consequently over any run whose poll times
are non-decreasing and no earlier than the initial lastTrigger, the
sequence of lastTrigger values is monotonically non-decreasing. -/
theorem c6_debounce_accept_monotone :
    (∀ (st : InterruptState) (now : Int) (level : Bool),
      (handleInterrupt st now level).2 = true →
      st.enabled = true ∧
      st.config.debounceTime ≤ now - st.lastTrigger ∧
      (handleInterrupt st now level).1.lastTrigger = now) ∧
    (∀ (st : InterruptState) (polls : List (Int × Bool)),
      (polls.map Prod.fst).Pairwise (· ≤ ·) →
      (∀ p ∈ polls, st.lastTrigger ≤ p.1) →
      List.Chain' (· ≤ ·) (st.lastTrigger :: (monitorRun st polls).2.2)) := by
  constructor
  · intro st now level h
    unfold handleInterrupt at h ⊢
    by_cases he : st.enabled
    · by_cases hd : now - st.lastTrigger < st.config.debounceTime
      · simp [he, hd] at h
      · simp [he, hd]
        omega
    · simp [he] at h
  · intro st polls
    induction polls generalizing st with
    | nil =>
      intro _ _
      simp [monitorRun]
    | cons p rest ih =>
      intro hpw hge
      obtain ⟨now, level⟩ := p
      have hstep := handleInterrupt_lastTrigger st now level
      have hnow : st.lastTrigger ≤ now := hge (now, level) (by simp)
      have h1 : st.lastTrigger ≤ (handleInterrupt st now level).1.lastTrigger := by
        rcases hstep with h | h <;> omega
      have hrest : ∀ p2 ∈ rest, (handleInterrupt st now level).1.lastTrigger ≤ p2.1 := by
        intro p2 hp2
        rcases hstep with h | h
        · rw [h]
          have := (List.pairwise_cons.mp (by simpa using hpw)).1 p2.1
            (List.mem_map_of_mem Prod.fst hp2)
          exact this
        · rw [h]
          exact hge p2 (List.mem_cons_of_mem _ hp2)
      have hpw2 : (rest.map Prod.fst).Pairwise (· ≤ ·) :=
        (List.pairwise_cons.mp (by simpa using hpw)).2
      have := ih (handleInterrupt st now level).1 hpw2 hrest
      simp only [monitorRun]
      rw [List.chain'_cons]
      exact ⟨h1, this⟩

/-- C6 witness: the concrete binding c6Binding (debounce 10, lastTrigger
0) accepts a poll at time 15, and a concrete run with non-decreasing
poll times yields a non-decreasing lastTrigger trajectory. -/
theorem c6_debounce_witness :
    (handleInterrupt c6Binding 15 true).1.lastTrigger = 15 ∧
    List.Chain' (· ≤ ·)
      (c6Binding.lastTrigger ::
        (monitorRun c6Binding [(5, true), (12, true), (30, false)]).2.2) := by
  constructor
  · exact (c6_debounce_accept_monotone.1 c6Binding 15 true (by decide)).2.2
  · exact c6_debounce_accept_monotone.2 c6Binding
      [(5, true), (12, true), (30, false)] (by decide) (by decide)

/-- C9: on a tamper-monitor tick whose three pin reads succeed, with a
state store and a tamper callback configured: the tick never returns an
error regardless of LogEvent or SaveState failures, the freshly read
TamperState (stamped with the tick time) is stored and its save is
attempted unconditionally, and the callback and event log are triggered
exactly when caseOpen OR motionDetected OR NOT voltageNormal. -/
theorem c9_tamper_tick (m : SecManager) (now : Int)
    (caseOpen motion voltOk logFails saveFails : Bool)
    (hstore : m.hasStore = true) (hcb : m.hasTamperCallback = true) :
    (checkSecurity m now (.ok caseOpen) (.ok motion) (.ok voltOk)
      logFails saveFails).2.tickError = none ∧
    (checkSecurity m now (.ok caseOpen) (.ok motion) (.ok voltOk)
      logFails saveFails).2.saveStateAttempted = true ∧
    (checkSecurity m now (.ok caseOpen) (.ok motion) (.ok voltOk)
      logFails saveFails).1.state = ⟨caseOpen, motion, voltOk, now⟩ ∧
    (checkSecurity m now (.ok caseOpen) (.ok motion) (.ok voltOk)
      logFails saveFails).2.tamperCallbackInvoked
      = (caseOpen || motion || !voltOk) ∧
    (checkSecurity m now (.ok caseOpen) (.ok motion) (.ok voltOk)
      logFails saveFails).2.logEventAttempted
      = (caseOpen || motion || !voltOk) := by
  unfold checkSecurity
  simp [hstore, hcb]

/-- C9 witness: a tick of c9Manager reading an open case while both
store operations fail still returns no error, saves the fresh state,
and fires the callback and the event log. -/
theorem c9_tamper_witness :
    (checkSecurity c9Manager 7 (.ok true) (.ok false) (.ok true)
      true true).2.tickError = none ∧
    (checkSecurity c9Manager 7 (.ok true) (.ok false) (.ok true)
      true true).2.saveStateAttempted = true ∧
    (checkSecurity c9Manager 7 (.ok true) (.ok false) (.ok true)
      true true).1.state = ⟨true, false, true, 7⟩ ∧
    (checkSecurity c9Manager 7 (.ok true) (.ok false) (.ok true)
      true true).2.tamperCallbackInvoked = true ∧
    (checkSecurity c9Manager 7 (.ok true) (.ok false) (.ok true)
      true true).2.logEventAttempted = true := by
  have h := c9_tamper_tick c9Manager 7 true false true true true rfl rfl
  exact ⟨h.1, h.2.1, h.2.2.1, by rw [h.2.2.2.1]; rfl, by rw [h.2.2.2.2]; rfl⟩

/-- C10: the thermal fan-speed setter clamps every requested speed into
[25, 100] before sending it to the PWM engine, in both the int variant
(setFanSpeed, src/thermal/cooling.go) and the uint32 variant
(setFanSpeedLocked, src/unnamed/part_005); the thermal subsystem can
therefore never command a fan duty below 25 or above 100, for any
integer input including 0. -/
theorem c10_fan_clamp :
    (∀ (m : ThermalMonitor) (s : Int), m.fanPin ≠ ("") →
      (setFanSpeed m s).lastSentDuty = some (clampFan s).toNat ∧
      fanSpeedLow ≤ clampFan s ∧ clampFan s ≤ fanSpeedHigh) ∧
    (∀ (fanPin : String) (d : Nat), fanPin ≠ ("") →
      setFanSpeedLocked fanPin d = some (clampFanNat d) ∧
      25 ≤ clampFanNat d ∧ clampFanNat d ≤ 100) := by
  constructor
  · intro m s hpin
    unfold setFanSpeed clampFan fanSpeedLow fanSpeedHigh
    rw [if_neg hpin]
    dsimp only
    refine ⟨?_, ?_, ?_⟩
    · split_ifs <;> simp only [Option.some.injEq] <;> omega
    · split_ifs <;> omega
    · split_ifs <;> omega
  · intro fanPin d hpin
    unfold setFanSpeedLocked clampFanNat
    rw [if_neg hpin]
    dsimp only
    refine ⟨?_, ?_, ?_⟩
    · split_ifs <;> simp only [Option.some.injEq] <;> omega
    · split_ifs <;> omega
    · split_ifs <;> omega

/-- C10 witness: requesting fan speed 0 on c10Monitor sends duty 25, and
the uint32 variant behaves identically. -/
theorem c10_fan_clamp_witness :
    (setFanSpeed c10Monitor 0).lastSentDuty = some 25 ∧
    setFanSpeedLocked ("fan") 0 = some 25 := by
  constructor
  · have h := (c10_fan_clamp.1 c10Monitor 0 (by decide)).1
    rw [h]
    rfl
  · have h := (c10_fan_clamp.2 ("fan") 0 (by decide)).1
    rw [h]
    rfl

/-- C1 amended: for a configured PWM channel, SetPWMDutyCycle with any
d in [0, 100] succeeds and stores d as the channel's runtime duty
cycle, but the subsequent read-back through GetPWMState returns the
channel's originally configured PWMConfig, whose duty cycle is not
updated by SetPWMDutyCycle; for d > 100 the call returns the
validation error and leaves the channel, including its stored
duty-cycle value, unchanged. -/
theorem c1_duty_cycle_set_and_readback (c : Controller) (name : String)
    (st : PwmState) (d : Nat) (h : lookupA c.pwmPins name = some st) :
    (d ≤ 100 →
      (setPWMDutyCycle c name d).2 = none ∧
      (∃ st2 : PwmState,
        lookupA (setPWMDutyCycle c name d).1.pwmPins name = some st2 ∧
        st2.dutyCycle = d ∧ st2.config = st.config) ∧
      getPWMState (setPWMDutyCycle c name d).1 name = .ok st.config) ∧
    (100 < d → setPWMDutyCycle c name d = (c, some .dutyCycleRange)) := by
  constructor
  · intro hd
    have hgt : ¬ d > 100 := by omega
    have hred : ∃ st2 : PwmState,
        setPWMDutyCycle c name d =
          ({ c with pwmPins := insertA c.pwmPins name st2 }, none) ∧
        st2.dutyCycle = d ∧ st2.config = st.config := by
      unfold setPWMDutyCycle
      rw [h]
      simp only [hgt, if_false]
      refine ⟨_, rfl, ?_, ?_⟩ <;>
        (dsimp only; (repeat' split) <;> rfl)
    obtain ⟨st2, heq, hd2, hcfg⟩ := hred
    refine ⟨by rw [heq], ⟨st2, ?_, hd2, hcfg⟩, ?_⟩
    · rw [heq]
      exact lookupA_insertA_self c.pwmPins name st2
    · rw [heq]
      unfold getPWMState
      dsimp only
      rw [lookupA_insertA_self c.pwmPins name st2]
      dsimp only
      rw [hcfg]
  · intro hgt
    unfold setPWMDutyCycle
    rw [h]
    simp [hgt]

/-- C1 witness: on the concrete controller c1Controller (fan channel
configured with duty 50), setting duty 100 succeeds and GetPWMState
still reads back the original configuration, and setting duty 101 is
rejected with the validation error leaving the controller unchanged. -/
theorem c1_duty_cycle_witness :
    (setPWMDutyCycle c1Controller ("fan") 100).2 = none ∧
    getPWMState (setPWMDutyCycle c1Controller ("fan") 100).1 ("fan") =
      .ok c1FanState.config ∧
    setPWMDutyCycle c1Controller ("fan") 101 = (c1Controller, some .dutyCycleRange) := by
  have hl : lookupA c1Controller.pwmPins ("fan") = some c1FanState := by
    simp [c1Controller, c1FanState, configurePWM, newController, insertA, lookupA]
  have h100 := c1_duty_cycle_set_and_readback c1Controller ("fan") c1FanState 100 hl
  have h101 := c1_duty_cycle_set_and_readback c1Controller ("fan") c1FanState 101 hl
  exact ⟨(h100.1 (by omega)).1, (h100.1 (by omega)).2.2, h101.2 (by omega)⟩

/-- C1 counterexample: the claim as stated is false.  On c1Controller
(fan channel configured with duty cycle 50), SetPWMDutyCycle to 75
succeeds, but the read-back of the effective configuration through
GetPWMState returns duty cycle 50, not 75. -/
theorem c1_readback_counterexample :
    (setPWMDutyCycle c1Controller ("fan") 75).2 = none ∧
    (getPWMState (setPWMDutyCycle c1Controller ("fan") 75).1 ("fan")).map
      (fun cfg => cfg.dutyCycle) = .ok 50 ∧
    (50 : Nat) ≠ 75 := by
  refine ⟨?_, ?_, by decide⟩ <;>
    simp [c1Controller, configurePWM, newController, setPWMDutyCycle,
      getPWMState, insertA, lookupA, Except.map]

/-- C2: in RunAll with Retries = 3, a test that fails on attempts 0 and
1 and succeeds on attempt 2 ends with its third-attempt results (its
Pass result) recorded and the run continuing into the rest of the
battery; a test that fails on all 3 attempts makes RunAll return the
error wrapping the last failure and no later battery entry is
attempted, so the recorded results are exactly the failing test's
attempts, independent of the rest of the battery. -/
theorem c2_runAll_retry_policy :
    (∀ (t : DiagTest) (rest : List DiagTest) (e0 e1 : GoErr)
       (r0 r1 r2 : List DiagResult),
      t.run 0 = (r0, some e0) →
      t.run 1 = (r1, some e1) →
      t.run 2 = (r2, none) →
      runAll 3 (t :: rest) =
        (r0 ++ r1 ++ r2 ++ (runAll 3 rest).1, (runAll 3 rest).2)) ∧
    (∀ (t : DiagTest) (rest : List DiagTest) (e0 e1 e2 : GoErr)
       (r0 r1 r2 : List DiagResult),
      t.run 0 = (r0, some e0) →
      t.run 1 = (r1, some e1) →
      t.run 2 = (r2, some e2) →
      runAll 3 (t :: rest) =
        (r0 ++ r1 ++ r2, some (.testsFailed t.name 3 e2))) := by
  have hrange : List.range 3 = [0, 1, 2] := by decide
  constructor
  · intro t rest e0 e1 r0 r1 r2 h0 h1 h2
    have hrT : runTest t 3 = (r0 ++ (r1 ++ r2), none) := by
      unfold runTest
      rw [hrange]
      simp [runTestLoop, h0, h1, h2]
    conv_lhs => unfold runAll
    rw [hrT]
    simp [List.append_assoc]
  · intro t rest e0 e1 e2 r0 r1 r2 h0 h1 h2
    have hrT : runTest t 3 =
        (r0 ++ (r1 ++ r2), some (.testsFailed t.name 3 e2)) := by
      unfold runTest
      rw [hrange]
      simp [runTestLoop, h0, h1, h2]
    conv_lhs => unfold runAll
    rw [hrT]
    simp [List.append_assoc]

/-- C2 witness: the concrete flaky test (fails twice, passes on the
third attempt) followed by a passing Power test yields the full
history ending in both Pass results and no error; the concrete
always-failing test aborts the run with the wrapped last failure and
the Power test's results are absent. -/
theorem c2_runAll_witness :
    runAll 3 [c2FlakyTest, c2LaterTest] =
      ([c2FailResult, c2FailResult, c2PassResult, c2PowerResult], none) ∧
    runAll 3 [c2FailingTest, c2LaterTest] =
      ([c2FailResult, c2FailResult, c2FailResult],
       some (.testsFailed ("GPIO") 3 (.readFailed ("pin1")))) := by
  constructor
  · have h := c2_runAll_retry_policy.1 c2FlakyTest [c2LaterTest]
      (.readFailed ("pin1")) (.readFailed ("pin1"))
      [c2FailResult] [c2FailResult] [c2PassResult] rfl rfl rfl
    rw [h]
    simp [runAll, runTest, runTestLoop, c2LaterTest, List.range]
  · have h := c2_runAll_retry_policy.2 c2FailingTest [c2LaterTest]
      (.readFailed ("pin1")) (.readFailed ("pin1")) (.readFailed ("pin1"))
      [c2FailResult] [c2FailResult] [c2FailResult] rfl rfl rfl
    rw [h]
    simp [c2FailingTest]

/- DisablePWM touches only the pwmPins map. -/
theorem disablePWM_preserves (c : Controller) (name : String) :
    (disablePWM c name).1.pins = c.pins ∧
    (disablePWM c name).1.simPins = c.simPins ∧
    (disablePWM c name).1.enabled = c.enabled ∧
    (disablePWM c name).1.simulation = c.simulation := by
  unfold disablePWM
  rcases hl : lookupA c.pwmPins name with _ | st
  · exact ⟨rfl, rfl, rfl, rfl⟩
  · dsimp only
    split
    · exact ⟨rfl, rfl, rfl, rfl⟩
    · split <;> exact ⟨rfl, rfl, rfl, rfl⟩

/- The PWM-disabling fold of Close touches only the pwmPins map. -/
theorem closeFold_preserves (ns : List String) (c : Controller) :
    (ns.foldl (fun acc n => (disablePWM acc n).1) c).pins = c.pins ∧
    (ns.foldl (fun acc n => (disablePWM acc n).1) c).simPins = c.simPins ∧
    (ns.foldl (fun acc n => (disablePWM acc n).1) c).simulation = c.simulation := by
  induction ns generalizing c with
  | nil => exact ⟨rfl, rfl, rfl⟩
  | cons n rest ih =>
    have h1 := disablePWM_preserves c n
    have h2 := ih (disablePWM c n).1
    simp only [List.foldl_cons]
    exact ⟨h2.1.trans h1.1, h2.2.1.trans h1.2.1, h2.2.2.trans h1.2.2.2⟩

/-- C8 amended: in non-simulation mode, after Close returns (with no
error) every configured non-nil pin has been driven low and the
controller is disabled, and subsequent configuration operations
(ConfigurePin, ConfigurePWM) fail with the disabled error; however
SetPinState and GetPinState do not check the disabled flag: on a
configured non-nil pin they still succeed after Close. -/
theorem c8_close_semantics (c : Controller) (hsim : c.simulation = false) :
    (close c).2 = none ∧
    (close c).1.enabled = false ∧
    (∀ name pin, lookupA (close c).1.pins name = some (some pin) →
      pin.level = false) ∧
    (∀ name p pull,
      configurePin (close c).1 name p pull = ((close c).1, some .disabled)) ∧
    (∀ name p cfg,
      configurePWM (close c).1 name p cfg = ((close c).1, some .disabled)) ∧
    (∀ name pin high, lookupA (close c).1.pins name = some (some pin) →
      (setPinState (close c).1 name high).2 = none) ∧
    (∀ name pin, lookupA (close c).1.pins name = some (some pin) →
      getPinState (close c).1 name = .ok pin.level) := by
  have hfold := closeFold_preserves (c.pwmPins.map Prod.fst) c
  have hclose : close c =
      ({ (c.pwmPins.map Prod.fst).foldl (fun acc n => (disablePWM acc n).1) c with
          pins := ((c.pwmPins.map Prod.fst).foldl
              (fun acc n => (disablePWM acc n).1) c).pins.map
            (fun (e : String × Option Pin) =>
              (e.1, e.2.map (fun (p : Pin) => { p with level := false }))),
          enabled := false }, none) := by
    unfold close
    rw [hsim]
    rfl
  rw [hclose]
  dsimp only
  have hpins : ∀ name,
      lookupA (((c.pwmPins.map Prod.fst).foldl
          (fun acc n => (disablePWM acc n).1) c).pins.map
        (fun (e : String × Option Pin) =>
          (e.1, e.2.map (fun (p : Pin) => { p with level := false })))) name =
      (lookupA c.pins name).map
        (fun o => o.map (fun (p : Pin) => { p with level := false })) := by
    intro name
    rw [hfold.1]
    exact lookupA_map
      (fun (o : Option Pin) => o.map (fun (p : Pin) => { p with level := false }))
      c.pins name
  refine ⟨rfl, rfl, ?_, ?_, ?_, ?_, ?_⟩
  · intro name pin hp
    rw [hpins name] at hp
    rcases hl : lookupA c.pins name with _ | o
    · rw [hl, Option.map_none'] at hp
      exact Option.noConfusion hp
    · rw [hl, Option.map_some'] at hp
      rcases o with _ | p0
      · rw [Option.map_none'] at hp
        exact Option.noConfusion (Option.some.inj hp)
      · rw [Option.map_some'] at hp
        cases Option.some.inj (Option.some.inj hp)
        rfl
  · intro name p pull
    unfold configurePin
    rfl
  · intro name p cfg
    unfold configurePWM
    rfl
  · intro name pin high hp
    unfold setPinState
    dsimp only at hp ⊢
    rw [hfold.2.2, hsim, if_neg Bool.false_ne_true, hp]
  · intro name pin hp
    unfold getPinState
    dsimp only at hp ⊢
    rw [hfold.2.2, hsim, if_neg Bool.false_ne_true, hp]

/-- C8 witness: the concrete controller c8Controller (one configured
pin p, driven high) after Close: no error, disabled, the pin is low,
ConfigurePin is rejected as disabled, yet SetPinState still
succeeds. -/
theorem c8_close_witness :
    (close c8Controller).2 = none ∧
    (close c8Controller).1.enabled = false ∧
    (∀ pin, lookupA (close c8Controller).1.pins ("p") = some (some pin) →
      pin.level = false) ∧
    configurePin (close c8Controller).1 ("q") (some ⟨false, .floatP⟩) .floatP =
      ((close c8Controller).1, some .disabled) ∧
    (∀ pin, lookupA (close c8Controller).1.pins ("p") = some (some pin) →
      (setPinState (close c8Controller).1 ("p") true).2 = none) := by
  have h := c8_close_semantics c8Controller (by simp [c8Controller,
    configurePin, setPinState, newController, insertA, lookupA])
  exact ⟨h.1, h.2.1, fun pin hp => h.2.2.1 ("p") pin hp,
    h.2.2.2.1 ("q") (some ⟨false, .floatP⟩) .floatP,
    fun pin hp => h.2.2.2.2.2.1 ("p") pin true hp⟩

/-- C8 counterexample: the claim as stated is false.  On the concrete
closed controller, SetPinState succeeds (returns no error) and
GetPinState returns the pin level instead of failing with a disabled
error. -/
theorem c8_after_close_counterexample :
    (close c8Controller).2 = none ∧
    (setPinState (close c8Controller).1 ("p") true).2 = none ∧
    getPinState (close c8Controller).1 ("p") = .ok false := by
  refine ⟨?_, ?_, ?_⟩ <;>
    simp [c8Controller, close, disablePWM, configurePin, setPinState,
      getPinState, newController, insertA, lookupA]

/- The min-scan is a lower bound of its start and every element. -/
theorem foldl_min_le (l : List ℚ) : ∀ a : ℚ, ∀ x ∈ a :: l, l.foldl min a ≤ x := by
  induction l with
  | nil =>
    intro a x hx
    simp at hx
    simp [hx]
  | cons b t ih =>
    intro a x hx
    simp only [List.foldl_cons]
    have hhead : t.foldl min (min a b) ≤ min a b :=
      ih (min a b) (min a b) (List.mem_cons_self _ _)
    rcases List.mem_cons.mp hx with h | h
    · rw [h]
      exact le_trans hhead (min_le_left a b)
    · rcases List.mem_cons.mp h with h2 | h2
      · rw [h2]
        exact le_trans hhead (min_le_right a b)
      · exact ih (min a b) x (List.mem_cons_of_mem _ h2)

/- The min-scan returns its start or one of the elements. -/
theorem foldl_min_mem (l : List ℚ) : ∀ a : ℚ, l.foldl min a ∈ a :: l := by
  induction l with
  | nil =>
    intro a
    simp
  | cons b t ih =>
    intro a
    simp only [List.foldl_cons]
    rcases List.mem_cons.mp (ih (min a b)) with h | h
    · rcases min_choice a b with hc | hc
      · rw [h, hc]
        exact List.mem_cons_self _ _
      · rw [h, hc]
        exact List.mem_cons_of_mem _ (List.mem_cons_self _ _)
    · exact List.mem_cons_of_mem _ (List.mem_cons_of_mem _ h)

/- The max-scan is an upper bound of its start and every element. -/
theorem foldl_max_ge (l : List ℚ) : ∀ a : ℚ, ∀ x ∈ a :: l, x ≤ l.foldl max a := by
  induction l with
  | nil =>
    intro a x hx
    simp at hx
    simp [hx]
  | cons b t ih =>
    intro a x hx
    simp only [List.foldl_cons]
    have hhead : max a b ≤ t.foldl max (max a b) :=
      ih (max a b) (max a b) (List.mem_cons_self _ _)
    rcases List.mem_cons.mp hx with h | h
    · rw [h]
      exact le_trans (le_max_left a b) hhead
    · rcases List.mem_cons.mp h with h2 | h2
      · rw [h2]
        exact le_trans (le_max_right a b) hhead
      · exact ih (max a b) x (List.mem_cons_of_mem _ h2)

/- The max-scan returns its start or one of the elements. -/
theorem foldl_max_mem (l : List ℚ) : ∀ a : ℚ, l.foldl max a ∈ a :: l := by
  induction l with
  | nil =>
    intro a
    simp
  | cons b t ih =>
    intro a
    simp only [List.foldl_cons]
    rcases List.mem_cons.mp (ih (max a b)) with h | h
    · rcases max_choice a b with hc | hc
      · rw [h, hc]
        exact List.mem_cons_self _ _
      · rw [h, hc]
        exact List.mem_cons_of_mem _ (List.mem_cons_self _ _)
    · exact List.mem_cons_of_mem _ (List.mem_cons_of_mem _ h)

/- The running-sum fold equals the start plus the list sum. -/
theorem foldl_add_eq_sum (l : List ℚ) : ∀ a : ℚ, l.foldl (· + ·) a = a + l.sum := by
  induction l with
  | nil =>
    intro a
    simp
  | cons b t ih =>
    intro a
    simp only [List.foldl_cons, List.sum_cons]
    rw [ih (a + b)]
    ring

/- The metrics block computes min, max, ripple and average over exactly
samples[0 .. count-1]. -/
theorem voltMetricsBlock_spec (cfg : StabConfig) (metrics : StabMetrics)
    (samples : List ℚ) (count : Nat) (now : Int)
    (hc : 0 < count) (hlen : count ≤ samples.length) :
    (voltMetricsBlock cfg metrics samples count now).1.minVoltage ∈
      samples.take count ∧
    (∀ x ∈ samples.take count,
      (voltMetricsBlock cfg metrics samples count now).1.minVoltage ≤ x) ∧
    (voltMetricsBlock cfg metrics samples count now).1.maxVoltage ∈
      samples.take count ∧
    (∀ x ∈ samples.take count,
      x ≤ (voltMetricsBlock cfg metrics samples count now).1.maxVoltage) ∧
    (voltMetricsBlock cfg metrics samples count now).1.voltageRipple =
      (voltMetricsBlock cfg metrics samples count now).1.maxVoltage -
      (voltMetricsBlock cfg metrics samples count now).1.minVoltage ∧
    (voltMetricsBlock cfg metrics samples count now).1.averageVoltage =
      (samples.take count).sum / (count : ℚ) := by
  obtain ⟨k, rfl⟩ : ∃ k, count = k + 1 := ⟨count - 1, by omega⟩
  rcases samples with _ | ⟨v, rest⟩
  · simp at hlen
  · have hred : (voltMetricsBlock cfg metrics (v :: rest) (k + 1) now).1 =
        { metrics with
          minVoltage := scanMin v (v :: rest.take k),
          maxVoltage := scanMax v (v :: rest.take k),
          voltageRipple := scanMax v (v :: rest.take k) - scanMin v (v :: rest.take k),
          averageVoltage :=
            ((v :: rest.take k).foldl (· + ·) 0) / ((k + 1 : Nat) : ℚ) } := by
      unfold voltMetricsBlock
      rw [if_pos hc]
      dsimp only
      rw [List.take_succ_cons]
      rfl
    rw [List.take_succ_cons, hred]
    dsimp only
    unfold scanMin scanMax
    refine ⟨?_, ?_, ?_, ?_, rfl, ?_⟩
    · rcases List.mem_cons.mp (foldl_min_mem (v :: rest.take k) v) with h | h
      · rw [h]
        exact List.mem_cons_self _ _
      · exact h
    · intro x hx
      exact foldl_min_le (v :: rest.take k) v x (List.mem_cons_of_mem _ hx)
    · rcases List.mem_cons.mp (foldl_max_mem (v :: rest.take k) v) with h | h
      · rw [h]
        exact List.mem_cons_self _ _
      · exact h
    · intro x hx
      exact foldl_max_ge (v :: rest.take k) v x (List.mem_cons_of_mem _ hx)
    · rw [foldl_add_eq_sum, zero_add]

/- The buffer contents, fill count and buffer length after one sample
tick. -/
theorem sample_samples (m : StabMonitor) (now : Int) (st : PowerSnapshot) :
    (sample m now st).1.samples = m.samples.set m.head st.voltage := rfl

theorem sample_count (m : StabMonitor) (now : Int) (st : PowerSnapshot) :
    (sample m now st).1.count =
      (if m.count < (m.samples.set m.head st.voltage).length then m.count + 1
       else m.count) := rfl

/- The min, max, ripple and average fields of the metrics after one
sample tick come from the metrics block (the power-cycle and
current-spike updates touch other fields only). -/
theorem sample_metrics_fields (m : StabMonitor) (now : Int) (st : PowerSnapshot) :
    ∃ metrics0 : StabMetrics,
      (sample m now st).1.metrics.minVoltage =
        (voltMetricsBlock m.cfg metrics0 (m.samples.set m.head st.voltage)
          (sample m now st).1.count now).1.minVoltage ∧
      (sample m now st).1.metrics.maxVoltage =
        (voltMetricsBlock m.cfg metrics0 (m.samples.set m.head st.voltage)
          (sample m now st).1.count now).1.maxVoltage ∧
      (sample m now st).1.metrics.voltageRipple =
        (voltMetricsBlock m.cfg metrics0 (m.samples.set m.head st.voltage)
          (sample m now st).1.count now).1.voltageRipple ∧
      (sample m now st).1.metrics.averageVoltage =
        (voltMetricsBlock m.cfg metrics0 (m.samples.set m.head st.voltage)
          (sample m now st).1.count now).1.averageVoltage := by
  unfold sample
  dsimp only
  refine ⟨(if (!st.availablePower.any (fun e => e.2)) ∧ !m.cycleInProgress then
      (true, now, m.metrics, ([] : List StabEvent))
    else if (st.availablePower.any (fun e => e.2)) ∧ m.cycleInProgress then
      (false, m.cycleStart,
        { m.metrics with
            powerCycles := m.metrics.powerCycles + 1,
            lastCycleDuration := now - m.cycleStart },
        [(⟨now, .powerCycle, ((now - m.cycleStart : Int) : ℚ), 0⟩ : StabEvent)])
    else (m.cycleInProgress, m.cycleStart, m.metrics, [])).2.2.1,
    ?_, ?_, ?_, ?_⟩ <;> (split <;> rfl)

/- Evaluation of the three-tick voltage excursion 5.0, 4.2, 5.0 on a
fresh monitor with window 3 and ripple threshold 0.5: the buffer ends
holding 5, 4.2, 5 with ripple 0.8, and the emitted events are one
source failover (initial source change from the zero value), then a
ripple and a sag event on each of the two ticks where the computed
ripple 0.8 exceeds 0.5. -/
theorem c7RunEval :
    sampleRun (mkStabMonitor c7Cfg) c7Ticks =
      (⟨c7Cfg, [5, 21 / 5, 5], 0, 3, 5, ("MAIN"), 0, false,
        ⟨4 / 5, 21 / 5, 5, 71 / 15, 0, 0, 0, 0⟩⟩,
       [⟨0, .sourceFailover, 0, 0⟩,
        ⟨1, .voltageRipple, 4 / 5, 1 / 2⟩, ⟨1, .voltageSag, 21 / 5, 24 / 5⟩,
        ⟨2, .voltageRipple, 4 / 5, 1 / 2⟩, ⟨2, .voltageSag, 21 / 5, 24 / 5⟩]) := by
  norm_num [sampleRun, sample, voltMetricsBlock, mkStabMonitor, c7Cfg, c7Ticks,
    c7Snap, scanMin, scanMax, criticalVoltage, List.replicate]
  simp

/-- C7 amended: after every power-stability sampling tick the reported
min, max, average and ripple are computed over exactly the voltage
samples currently held in the circular buffer (the fill count stays
positive and bounded by the window capacity), with
ripple = max - min and average = sum / count; and for the concrete
sample sequence 5.0, 4.2, 5.0 with ripple threshold 0.5 V the reported
ripple is 0.8 >= 0.5, with a ripple event emitted at each of the two
ticks whose computed ripple exceeds the threshold (two events in
total, not one). -/
theorem c7_stability_metrics :
    (∀ (m : StabMonitor) (now : Int) (st : PowerSnapshot),
      m.samples.length = m.cfg.sampleWindow →
      m.count ≤ m.cfg.sampleWindow →
      0 < m.cfg.sampleWindow →
      (sample m now st).1.count ≤ m.cfg.sampleWindow ∧
      0 < (sample m now st).1.count ∧
      (sample m now st).1.samples.length = m.cfg.sampleWindow ∧
      (sample m now st).1.metrics.minVoltage ∈ heldSamples (sample m now st).1 ∧
      (∀ x ∈ heldSamples (sample m now st).1,
        (sample m now st).1.metrics.minVoltage ≤ x) ∧
      (sample m now st).1.metrics.maxVoltage ∈ heldSamples (sample m now st).1 ∧
      (∀ x ∈ heldSamples (sample m now st).1,
        x ≤ (sample m now st).1.metrics.maxVoltage) ∧
      (sample m now st).1.metrics.voltageRipple =
        (sample m now st).1.metrics.maxVoltage -
        (sample m now st).1.metrics.minVoltage ∧
      (sample m now st).1.metrics.averageVoltage =
        (heldSamples (sample m now st).1).sum / ((sample m now st).1.count : ℚ)) ∧
    ((sampleRun (mkStabMonitor c7Cfg) c7Ticks).1.metrics.voltageRipple = 4 / 5 ∧
     (1 : ℚ) / 2 ≤ 4 / 5 ∧
     ((sampleRun (mkStabMonitor c7Cfg) c7Ticks).2.filter isRippleEvent).length = 2) := by
  constructor
  · intro m now st hm hc hw
    have hlen' : (m.samples.set m.head st.voltage).length = m.cfg.sampleWindow := by
      rw [List.length_set]
      exact hm
    have hcnt1 : 0 < (sample m now st).1.count := by
      rw [sample_count, hlen']
      split <;> omega
    have hcnt2 : (sample m now st).1.count ≤ m.cfg.sampleWindow := by
      rw [sample_count, hlen']
      split <;> omega
    have hlen2 : (sample m now st).1.count ≤ (m.samples.set m.head st.voltage).length := by
      rw [hlen']
      exact hcnt2
    obtain ⟨metrics0, h1, h2, h3, h4⟩ := sample_metrics_fields m now st
    have hspec := voltMetricsBlock_spec m.cfg metrics0
      (m.samples.set m.head st.voltage) (sample m now st).1.count now hcnt1 hlen2
    have hheld : heldSamples (sample m now st).1 =
        (m.samples.set m.head st.voltage).take (sample m now st).1.count := by
      unfold heldSamples
      rw [sample_samples]
    refine ⟨hcnt2, hcnt1, ?_, ?_, ?_, ?_, ?_, ?_, ?_⟩
    · rw [sample_samples]
      exact hlen'
    · rw [hheld, h1]
      exact hspec.1
    · intro x hx
      rw [h1]
      exact hspec.2.1 x (by rwa [hheld] at hx)
    · rw [hheld, h2]
      exact hspec.2.2.1
    · intro x hx
      rw [h2]
      exact hspec.2.2.2.1 x (by rwa [hheld] at hx)
    · rw [h3, h2, h1]
      exact hspec.2.2.2.2.1
    · rw [h4, hheld]
      exact hspec.2.2.2.2.2
  · refine ⟨?_, by norm_num, ?_⟩
    · rw [c7RunEval]
    · rw [c7RunEval]
      rfl

/-- C7 witness: one tick at voltage 5 on a fresh monitor with window 3
keeps the fill count within the capacity and reports a minimum voltage
that is one of the held samples. -/
theorem c7_stability_witness :
    (sample (mkStabMonitor c7Cfg) 0 (c7Snap 5)).1.count ≤ c7Cfg.sampleWindow ∧
    (sample (mkStabMonitor c7Cfg) 0 (c7Snap 5)).1.metrics.minVoltage ∈
      heldSamples (sample (mkStabMonitor c7Cfg) 0 (c7Snap 5)).1 := by
  have h := c7_stability_metrics.1 (mkStabMonitor c7Cfg) 0 (c7Snap 5)
    (by simp [mkStabMonitor, c7Cfg]) (by simp [mkStabMonitor])
    (by simp [mkStabMonitor, c7Cfg])
  exact ⟨h.1, h.2.2.2.1⟩

/-- C7 counterexample: the claim as stated is false.  For the sample
sequence 5.0, 4.2, 5.0 with ripple threshold 0.5 V, the monitor emits a
ripple event on both ticks whose computed ripple 0.8 exceeds the
threshold: two ripple events, not exactly one. -/
theorem c7_ripple_count_counterexample :
    ((sampleRun (mkStabMonitor c7Cfg) c7Ticks).2.filter isRippleEvent).length = 2 ∧
    ((sampleRun (mkStabMonitor c7Cfg) c7Ticks).2.filter isRippleEvent).length ≠ 1 := by
  rw [c7RunEval]
  exact ⟨rfl, by decide⟩

end WraleHW
